import Mathlib

/-!
Verification of the recording-session and audio/video synchronization
subsystem of the osh repository, shallowly embedded in Lean 4.

The embedded functions follow the Python source:
  * src/recorders/utils.py      (combine_audio_video with time_diff)
  * src/screen_audio_recorder.py (combine_audio_video, simple mux)
  * src/recorders/recorder.py   (record_audio read loop, record_screen)
  * src/recorders/recording_handler.py (RecordingSession.start / stop)

External effects (ffprobe, ffmpeg subprocesses, the temp file, the audio
device) are modelled by oracles describing how each external call behaves,
and by result records tracing the observable effects the function performed.
Durations are rationals, standing for exact arithmetic.
-/

namespace Osh

/-! ## Stream merger: src/recorders/utils.py, combine_audio_video -/

namespace RecordersUtils

/-- Line 181 of src/recorders/utils.py:
beginning_duration = audio_duration - video_duration - time_diff. -/
def beginning_duration (audio_duration video_duration time_diff : ℚ) : ℚ :=
  audio_duration - video_duration - time_diff

/-- Line 182 of src/recorders/utils.py: ending_duration = time_diff. -/
def ending_duration (time_diff : ℚ) : ℚ :=
  time_diff

/-- Failure classes of combine_audio_video, all caught by the outer
except-block which prints the message and returns None. -/
inductive MergeError
  | probeFailure
  | typeError
  | invalidTiming
  | execFailure
deriving DecidableEq, Repr

/-- Oracle describing how each external call inside combine_audio_video
behaves: ffprobe results (none = the probe subprocess raised), whether each
subprocess.run call raises, whether the final ffmpeg run actually wrote the
output file (a nonzero ffmpeg exit is not checked by the code), and whether
os.remove of the temp file raises. -/
structure MergeOracle where
  audioDuration : Option ℚ
  videoDuration : Option ℚ
  videoInfo : Option (ℕ × ℕ × ℚ)
  paddingRunRaises : Bool
  muxRunRaises : Bool
  muxWritesOutput : Bool
  removeRaises : Bool
deriving DecidableEq, Repr

/-- Observable outcome of one call to combine_audio_video: the returned
value, the failure class caught (if any), which ffmpeg invocations ran,
the codec arguments of the final mux, whether the output file was written,
and whether the padded-video temp file was created / remains on disk. -/
structure MergeResult where
  ret : Option String
  error : Option MergeError
  ranFfmpegPadding : Bool
  ranFfmpegMux : Bool
  muxVcodec : Option String
  muxAcodec : Option String
  wroteOutput : Bool
  tempCreated : Bool
  tempRemains : Bool
deriving DecidableEq, Repr

/-- Outcome of an exception raised before the temp file is created:
nothing ran, nothing was written, and the except-block returns None. -/
def mergeFailEarly (e : MergeError) : MergeResult :=
  { ret := none, error := some e, ranFfmpegPadding := false, ranFfmpegMux := false,
    muxVcodec := none, muxAcodec := none, wroteOutput := false,
    tempCreated := false, tempRemains := false }

/-- Shallow embedding of combine_audio_video
(src/recorders/utils.py lines 138-270). Control flow of the source:
probe audio duration, probe video duration, compute the two paddings
(a TypeError if time_diff is None), raise ValueError if either padding is
negative, probe video dimensions, create the temp file, run the ffmpeg
padding command, run the ffmpeg mux command (vcodec copy, acodec aac),
remove the temp file inside its own try-block, return output_file; the
outer except-block turns any exception into a printed message and None.
Cleanup of the temp file is NOT in a finally-block, so an exception in
either subprocess.run leaves the temp file on disk. -/
def combine_audio_video (video_file audio_file output_file : String)
    (time_diff : Option ℚ) (o : MergeOracle) : MergeResult :=
  match o.audioDuration with
  | none => mergeFailEarly MergeError.probeFailure
  | some audio_duration =>
    match o.videoDuration with
    | none => mergeFailEarly MergeError.probeFailure
    | some video_duration =>
      match time_diff with
      | none => mergeFailEarly MergeError.typeError
      | some td =>
        if beginning_duration audio_duration video_duration td < 0 ∨
            ending_duration td < 0 then
          mergeFailEarly MergeError.invalidTiming
        else
          match o.videoInfo with
          | none => mergeFailEarly MergeError.probeFailure
          | some _ =>
            if o.paddingRunRaises then
              { ret := none, error := some MergeError.execFailure,
                ranFfmpegPadding := false, ranFfmpegMux := false,
                muxVcodec := none, muxAcodec := none, wroteOutput := false,
                tempCreated := true, tempRemains := true }
            else if o.muxRunRaises then
              { ret := none, error := some MergeError.execFailure,
                ranFfmpegPadding := true, ranFfmpegMux := false,
                muxVcodec := none, muxAcodec := none, wroteOutput := false,
                tempCreated := true, tempRemains := true }
            else
              { ret := some output_file, error := none,
                ranFfmpegPadding := true, ranFfmpegMux := true,
                muxVcodec := some "copy", muxAcodec := some "aac",
                wroteOutput := o.muxWritesOutput,
                tempCreated := true, tempRemains := o.removeRaises }

end RecordersUtils

/-! ## Stream merger without timing: src/screen_audio_recorder.py, combine_audio_video -/

namespace ScreenAudioRecorder

/-- Observable outcome of the simple mux: the returned value and the codec
arguments passed to ffmpeg.output. -/
structure SimpleMuxResult where
  ret : Option String
  vcodec : String
  acodec : String
deriving DecidableEq, Repr

/-- Shallow embedding of combine_audio_video in src/screen_audio_recorder.py
(lines 278-319): a simple mux with no time_diff parameter. It builds the
ffmpeg output with vcodec copy (video stream copied as-is) and acodec aac
(audio transcoded), runs it, and returns output_file; any exception is
caught, printed, and None is returned. `runRaises` models whether the
ffmpeg run raises. -/
def combine_audio_video (video_file audio_file output_file : String)
    (runRaises : Bool) : SimpleMuxResult :=
  if runRaises then { ret := none, vcodec := "copy", acodec := "aac" }
  else { ret := some output_file, vcodec := "copy", acodec := "aac" }

end ScreenAudioRecorder

/-! ## Session coordinator: src/recorders/recording_handler.py, RecordingSession -/

namespace RecordingHandler

/-- Mutable fields of the RecordingSession object
(src/recorders/recording_handler.py lines 15-23). Threads and stop events
are identified by abstract numeric handles. -/
structure RecordingSession where
  is_recording : Bool
  recording_path : Option String
  recording_thread : Option ℕ
  manual_stop_event : Option ℕ
  recording_mode : Option String
  recording_actually_started : Bool
deriving DecidableEq, Repr

/-- Shallow embedding of RecordingSession.start
(src/recorders/recording_handler.py lines 30-107). If a recording is
already active it returns False at once, touching nothing. Otherwise it
allocates a fresh stop event, resets the started flag, stores the mode,
spawns and starts the recording thread, sets is_recording, and returns
True. `freshEvent` and `freshThread` are the handles of the newly created
threading.Event and threading.Thread. -/
def RecordingSession.start (s : RecordingSession) (mode : String)
    (freshEvent freshThread : ℕ) : Bool × RecordingSession :=
  if s.is_recording then (false, s)
  else
    (true,
      { s with
        manual_stop_event := some freshEvent,
        recording_actually_started := false,
        recording_mode := some mode,
        recording_thread := some freshThread,
        is_recording := true })

/-- Side effects attempted by one call to RecordingSession.stop: status
messages emitted through the callback, whether the manual stop event was
set, and whether a join on the recording thread was attempted. -/
structure StopEffects where
  statusMessages : List String
  stopEventSet : Bool
  joinAttempted : Bool
deriving DecidableEq, Repr

/-- Shallow embedding of RecordingSession.stop
(src/recorders/recording_handler.py lines 109-134). With no active
recording it returns (None, None) immediately. Otherwise it emits the
stopping status, sets the stop event if one exists, joins the recording
thread if it exists and is alive, clears is_recording, and returns the
recorded path and mode while resetting both fields. -/
def RecordingSession.stop (s : RecordingSession) (threadAlive : Bool) :
    (Option String × Option String) × RecordingSession × StopEffects :=
  if !s.is_recording then
    ((none, none), s, { statusMessages := [], stopEventSet := false, joinAttempted := false })
  else
    ((s.recording_path, s.recording_mode),
      { s with is_recording := false, recording_path := none, recording_mode := none },
      { statusMessages := ["Stopping recording..."],
        stopEventSet := s.manual_stop_event.isSome,
        joinAttempted := s.recording_thread.isSome && threadAlive })

end RecordingHandler

/-! ## Capture engines: src/recorders/recorder.py -/

namespace RecordersRecorder

/-- Line 46 of src/recorders/recorder.py: max_frames = int(1800 * fs),
a fixed 30-minute preallocation cap. -/
def max_frames (fs : ℕ) : ℕ :=
  1800 * fs

/-- Writing a chunk into the preallocated recording buffer at a given
offset, modelling recording[offset : offset + len(chunk)] = chunk
(line 75). Samples are rationals; one list entry is one frame. -/
def writeChunk (buf : List ℚ) (offset : ℕ) (chunk : List ℚ) : List ℚ :=
  buf.take offset ++ chunk ++ buf.drop (offset + chunk.length)

/-- State of the audio read loop: the buffer, the write offset, the number
of chunk reads performed so far, and whether every chunk so far passed the
in-bounds store check of line 74. -/
structure AudioLoopState where
  recording : List ℚ
  offset : ℕ
  reads : ℕ
  allStored : Bool
deriving Repr

/-- One iteration body of the chunk-read loop of record_audio
(src/recorders/recorder.py lines 63-77): this_chunk =
min(chunk_size, max_frames - offset); the stream read returns the frames
readChunk reads this_chunk (at most this_chunk of them); the chunk is
stored only if offset + len(chunk) is within the buffer (line 74); offset
advances by len(chunk). -/
def record_audio_step (chunk_size max_frames : ℕ)
    (readChunk : ℕ → ℕ → List ℚ) (s : AudioLoopState) : AudioLoopState :=
  { recording :=
      if s.offset + (readChunk s.reads (min chunk_size (max_frames - s.offset))).length
          ≤ max_frames then
        writeChunk s.recording s.offset
          (readChunk s.reads (min chunk_size (max_frames - s.offset)))
      else s.recording,
    offset := s.offset + (readChunk s.reads (min chunk_size (max_frames - s.offset))).length,
    reads := s.reads + 1,
    allStored := s.allStored &&
      decide (s.offset + (readChunk s.reads (min chunk_size (max_frames - s.offset))).length
        ≤ max_frames) }

/-- Shallow embedding of the chunk-read loop of record_audio
(src/recorders/recorder.py lines 63-83). While offset < max_frames the
loop runs record_audio_step, then breaks if the stop event is observed
set — stop r is the value of stop_event.is_set() at the check following
the r-th read. fuel bounds the number of iterations unrolled. -/
def record_audio_loop (chunk_size max_frames : ℕ) (stop : ℕ → Bool)
    (readChunk : ℕ → ℕ → List ℚ) : ℕ → AudioLoopState → AudioLoopState
  | 0, s => s
  | fuel + 1, s =>
    if s.offset < max_frames then
      if stop (record_audio_step chunk_size max_frames readChunk s).reads then
        record_audio_step chunk_size max_frames readChunk s
      else
        record_audio_loop chunk_size max_frames stop readChunk fuel
          (record_audio_step chunk_size max_frames readChunk s)
    else s

/-- Line 92 of src/recorders/recorder.py: recording = recording[:offset],
the buffer trimmed to the frames actually captured, which is what
sf.write then writes to the file. -/
def record_audio_trim (s : AudioLoopState) : List ℚ :=
  s.recording.take s.offset

/-- Shallow embedding of monitor_stop_event (src/recorders/recorder.py
lines 203-212): once the stop event fires, SIGTERM is sent to the encoder
process iff process.poll() is None, that is, iff the process has not
already exited. Returns whether the signal is sent. -/
def monitor_stop_event (processHasExited : Bool) : Bool :=
  if processHasExited then false else true

/-- Observable outcome of the exit-code handling of record_screen. -/
structure ScreenExitResult where
  ret : Option String
  errorReported : Bool
deriving DecidableEq, Repr

/-- Shallow embedding of the exit-code handling of record_screen
(src/recorders/recorder.py lines 219-241): after process.wait(), a return
code other than 0 and -15 prints an error only in verbose mode and returns
None; otherwise output_file is returned. The surrounding except-block
catches any exception, so nothing is raised on either path. -/
def record_screen_exit (output_file : String) (returncode : ℤ)
    (verbose : Bool) : ScreenExitResult :=
  if returncode ≠ 0 ∧ returncode ≠ -15 then
    { ret := none, errorReported := verbose }
  else
    { ret := some output_file, errorReported := false }

/-- Length of the buffer is preserved by an in-bounds chunk write. -/
theorem writeChunk_length (buf : List ℚ) (offset : ℕ) (chunk : List ℚ)
    (h : offset + chunk.length ≤ buf.length) :
    (writeChunk buf offset chunk).length = buf.length := by
  simp only [writeChunk, List.length_append, List.length_take, List.length_drop]
  omega

/-- Once the stop predicate holds from index k on, the loop performs at
most one further read past k: starting from a state with reads ≤ k, the
final read count is at most k + 1. -/
theorem record_audio_loop_reads_le (chunk_size max_frames k : ℕ)
    (stop : ℕ → Bool) (readChunk : ℕ → ℕ → List ℚ)
    (hstop : ∀ j, k ≤ j → stop j = true) :
    ∀ (fuel : ℕ) (s : AudioLoopState), s.reads ≤ k →
      (record_audio_loop chunk_size max_frames stop readChunk fuel s).reads ≤ k + 1 := by
  intro fuel
  induction fuel with
  | zero => intro s hs; rw [record_audio_loop]; omega
  | succ fuel ih =>
    intro s hs
    rw [record_audio_loop]
    by_cases hoff : s.offset < max_frames
    · rw [if_pos hoff]
      by_cases hstop2 :
          stop (record_audio_step chunk_size max_frames readChunk s).reads = true
      · rw [if_pos hstop2]
        show s.reads + 1 ≤ k + 1
        omega
      · rw [if_neg hstop2]
        apply ih
        show s.reads + 1 ≤ k
        by_contra hgt
        exact hstop2 (hstop (s.reads + 1) (by omega))
    · rw [if_neg hoff]
      omega

/-- The loop preserves the buffer-safety invariant: the offset never
exceeds max_frames, the buffer keeps its preallocated length, and every
chunk write passes the in-bounds check, provided each read returns at most
the requested number of frames. -/
theorem record_audio_step_invariant (chunk_size max_frames : ℕ)
    (readChunk : ℕ → ℕ → List ℚ)
    (hread : ∀ i r, (readChunk i r).length ≤ r) (s : AudioLoopState)
    (hoff : s.offset < max_frames) (h2 : s.recording.length = max_frames)
    (h3 : s.allStored = true) :
    (record_audio_step chunk_size max_frames readChunk s).offset ≤ max_frames ∧
    (record_audio_step chunk_size max_frames readChunk s).recording.length = max_frames ∧
    (record_audio_step chunk_size max_frames readChunk s).allStored = true := by
  have hlen : (readChunk s.reads (min chunk_size (max_frames - s.offset))).length
      ≤ max_frames - s.offset :=
    le_trans (hread _ _) (Nat.min_le_right _ _)
  have hin : s.offset + (readChunk s.reads (min chunk_size (max_frames - s.offset))).length
      ≤ max_frames := by omega
  refine ⟨hin, ?_, ?_⟩
  · show (if _ ≤ max_frames then writeChunk s.recording s.offset _
        else s.recording).length = max_frames
    rw [if_pos hin, writeChunk_length]
    · exact h2
    · rw [h2]; exact hin
  · show (s.allStored && decide _) = true
    rw [h3, decide_eq_true hin]
    rfl

/-- The loop preserves the buffer-safety invariant: the offset never
exceeds max_frames, the buffer keeps its preallocated length, and every
chunk write passes the in-bounds check, provided each read returns at most
the requested number of frames. -/
theorem record_audio_loop_invariant (chunk_size max_frames : ℕ)
    (stop : ℕ → Bool) (readChunk : ℕ → ℕ → List ℚ)
    (hread : ∀ i r, (readChunk i r).length ≤ r) :
    ∀ (fuel : ℕ) (s : AudioLoopState),
      s.offset ≤ max_frames → s.recording.length = max_frames →
      s.allStored = true →
      (record_audio_loop chunk_size max_frames stop readChunk fuel s).offset ≤ max_frames ∧
      (record_audio_loop chunk_size max_frames stop readChunk fuel s).recording.length
        = max_frames ∧
      (record_audio_loop chunk_size max_frames stop readChunk fuel s).allStored = true := by
  intro fuel
  induction fuel with
  | zero => intro s h1 h2 h3; rw [record_audio_loop]; exact ⟨h1, h2, h3⟩
  | succ fuel ih =>
    intro s h1 h2 h3
    rw [record_audio_loop]
    by_cases hoff : s.offset < max_frames
    · rw [if_pos hoff]
      have hstep := record_audio_step_invariant chunk_size max_frames readChunk hread s
        hoff h2 h3
      by_cases hstop2 :
          stop (record_audio_step chunk_size max_frames readChunk s).reads = true
      · rw [if_pos hstop2]
        exact hstep
      · rw [if_neg hstop2]
        exact ih _ hstep.1 hstep.2.1 hstep.2.2
    · rw [if_neg hoff]
      exact ⟨h1, h2, h3⟩

end RecordersRecorder

end Osh

namespace Osh

/-- C4: calling start while a recording is active returns failure and
leaves every field of the existing session unchanged, so a second session
can never become active while one is recording. -/
theorem C4_start_mutual_exclusion (s : RecordingHandler.RecordingSession)
    (mode : String) (freshEvent freshThread : ℕ)
    (h : s.is_recording = true) :
    (s.start mode freshEvent freshThread).1 = false ∧
      (s.start mode freshEvent freshThread).2 = s := by
  unfold RecordingHandler.RecordingSession.start
  rw [h]
  exact ⟨rfl, rfl⟩

/-- Witness for C4 on a concrete active session. -/
theorem C4_start_mutual_exclusion_witness :
    (RecordingHandler.RecordingSession.start
        { is_recording := true, recording_path := some "recording_1.wav",
          recording_thread := some 7, manual_stop_event := some 3,
          recording_mode := some "audio", recording_actually_started := true }
        "video" 4 8).1 = false ∧
    (RecordingHandler.RecordingSession.start
        { is_recording := true, recording_path := some "recording_1.wav",
          recording_thread := some 7, manual_stop_event := some 3,
          recording_mode := some "audio", recording_actually_started := true }
        "video" 4 8).2 =
      { is_recording := true, recording_path := some "recording_1.wav",
        recording_thread := some 7, manual_stop_event := some 3,
        recording_mode := some "audio", recording_actually_started := true } :=
  C4_start_mutual_exclusion _ "video" 4 8 rfl

/-- C10: calling stop with no active recording returns (None, None), leaves
every field of the session unchanged, emits no status message, sets no stop
event and attempts no thread join. -/
theorem C10_stop_idle_noop (s : RecordingHandler.RecordingSession)
    (threadAlive : Bool) (h : s.is_recording = false) :
    s.stop threadAlive =
      ((none, none), s,
        { statusMessages := [], stopEventSet := false, joinAttempted := false }) := by
  unfold RecordingHandler.RecordingSession.stop
  rw [h]
  rfl

/-- Witness for C10 on a concrete idle session. -/
theorem C10_stop_idle_noop_witness :
    RecordingHandler.RecordingSession.stop
        { is_recording := false, recording_path := some "recording_1.wav",
          recording_thread := some 7, manual_stop_event := some 3,
          recording_mode := some "audio", recording_actually_started := false }
        true =
      ((none, none),
        { is_recording := false, recording_path := some "recording_1.wav",
          recording_thread := some 7, manual_stop_event := some 3,
          recording_mode := some "audio", recording_actually_started := false },
        { statusMessages := [], stopEventSet := false, joinAttempted := false }) :=
  C10_stop_idle_noop _ true rfl

/-- C6: once the stop signal is observed set (it holds at check index k
and, being one-shot, stays set), the audio capture loop performs at most
one further chunk read before exiting: its total read count is at most
k + 1; and the screen watcher sends SIGTERM to the encoder process iff the
process has not already exited. -/
theorem C6_cancellation (chunk_size mf k fuel : ℕ) (stop : ℕ → Bool)
    (readChunk : ℕ → ℕ → List ℚ) (buf : List ℚ) (processHasExited : Bool)
    (hmono : ∀ i j, i ≤ j → stop i = true → stop j = true)
    (hk : stop k = true) :
    (RecordersRecorder.record_audio_loop chunk_size mf stop readChunk fuel
        { recording := buf, offset := 0, reads := 0, allStored := true }).reads ≤ k + 1 ∧
    (RecordersRecorder.monitor_stop_event processHasExited = true ↔
      processHasExited = false) := by
  constructor
  · exact RecordersRecorder.record_audio_loop_reads_le chunk_size mf k stop readChunk
      (fun j hj => hmono k j hj hk) fuel _ (Nat.zero_le k)
  · cases processHasExited <;> simp [RecordersRecorder.monitor_stop_event]

/-- Witness for C6: signal set from the first check on, the loop does at
most two reads in total; the watcher signals a still-running process. -/
theorem C6_cancellation_witness :
    (RecordersRecorder.record_audio_loop 1024 2048
        (fun j => decide (1 ≤ j)) (fun _ r => List.replicate r 0) 5
        { recording := [], offset := 0, reads := 0, allStored := true }).reads ≤ 2 ∧
    (RecordersRecorder.monitor_stop_event false = true ↔ false = false) :=
  C6_cancellation 1024 2048 1 5 (fun j => decide (1 ≤ j)) (fun _ r => List.replicate r 0)
    [] false
    (fun i j hij hi => by
      simp only [decide_eq_true_eq] at hi ⊢
      omega)
    (by decide)

/-- C7 counterexample: with exit code 1 and verbose off, record_screen
returns None — the best-available file path is discarded, not returned,
and no error is reported. -/
theorem C7_counterexample :
    (RecordersRecorder.record_screen_exit "out.mp4" 1 false).ret = none ∧
    (RecordersRecorder.record_screen_exit "out.mp4" 1 false).errorReported = false := by
  constructor <;> decide

/-- C7 amended: exit code 0 and the SIGTERM exit code -15 are treated as
success and the output path is returned; any other exit code makes
record_screen return None — the file path is discarded rather than
returned — with the error printed only in verbose mode and no exception
raised on either path. -/
theorem C7_exit_code_handling (output_file : String) (returncode : ℤ)
    (verbose : Bool) :
    ((returncode = 0 ∨ returncode = -15) →
      RecordersRecorder.record_screen_exit output_file returncode verbose =
        { ret := some output_file, errorReported := false }) ∧
    (returncode ≠ 0 → returncode ≠ -15 →
      RecordersRecorder.record_screen_exit output_file returncode verbose =
        { ret := none, errorReported := verbose }) := by
  constructor
  · intro h
    rcases h with h | h <;> simp [RecordersRecorder.record_screen_exit, h]
  · intro h0 h15
    simp [RecordersRecorder.record_screen_exit, h0, h15]

/-- Witness for C7 amended at exit codes -15 and 1. -/
theorem C7_exit_code_handling_witness :
    RecordersRecorder.record_screen_exit "out.mp4" (-15) true =
      { ret := some "out.mp4", errorReported := false } ∧
    RecordersRecorder.record_screen_exit "out.mp4" 1 true =
      { ret := none, errorReported := true } :=
  ⟨(C7_exit_code_handling "out.mp4" (-15) true).1 (Or.inr rfl),
    (C7_exit_code_handling "out.mp4" 1 true).2 (by decide) (by decide)⟩

/-- C8: the recording buffer is preallocated to the fixed 30-minute cap of
1800 * fs frames; provided each stream read returns at most the requested
number of frames, every chunk write stays within that bound, and the file
written on completion contains exactly the frames up to the final read
offset (the buffer trimmed to the offset), never more than the cap. -/
theorem C8_buffer_bounds (fs chunk_size fuel : ℕ) (stop : ℕ → Bool)
    (readChunk : ℕ → ℕ → List ℚ) (buf : List ℚ)
    (hread : ∀ i r, (readChunk i r).length ≤ r)
    (hbuf : buf.length = RecordersRecorder.max_frames fs) :
    (RecordersRecorder.record_audio_loop chunk_size (RecordersRecorder.max_frames fs)
        stop readChunk fuel
        { recording := buf, offset := 0, reads := 0, allStored := true }).allStored = true ∧
    (RecordersRecorder.record_audio_loop chunk_size (RecordersRecorder.max_frames fs)
        stop readChunk fuel
        { recording := buf, offset := 0, reads := 0, allStored := true }).offset
      ≤ RecordersRecorder.max_frames fs ∧
    (RecordersRecorder.record_audio_trim
        (RecordersRecorder.record_audio_loop chunk_size (RecordersRecorder.max_frames fs)
          stop readChunk fuel
          { recording := buf, offset := 0, reads := 0, allStored := true })).length =
      (RecordersRecorder.record_audio_loop chunk_size (RecordersRecorder.max_frames fs)
        stop readChunk fuel
        { recording := buf, offset := 0, reads := 0, allStored := true }).offset := by
  have h := RecordersRecorder.record_audio_loop_invariant chunk_size
    (RecordersRecorder.max_frames fs) stop readChunk hread fuel
    { recording := buf, offset := 0, reads := 0, allStored := true }
    (Nat.zero_le _) hbuf rfl
  refine ⟨h.2.2, h.1, ?_⟩
  unfold RecordersRecorder.record_audio_trim
  rw [List.length_take, h.2.1]
  exact Nat.min_eq_left h.1

/-- Witness for C8 at fs = 1 with full reads and the stop signal set at
the first check. -/
theorem C8_buffer_bounds_witness :
    (RecordersRecorder.record_audio_loop 1024 (RecordersRecorder.max_frames 1)
        (fun _ => true) (fun _ r => List.replicate r 0) 3
        { recording := List.replicate 1800 0, offset := 0, reads := 0,
          allStored := true }).allStored = true ∧
    (RecordersRecorder.record_audio_loop 1024 (RecordersRecorder.max_frames 1)
        (fun _ => true) (fun _ r => List.replicate r 0) 3
        { recording := List.replicate 1800 0, offset := 0, reads := 0,
          allStored := true }).offset ≤ RecordersRecorder.max_frames 1 ∧
    (RecordersRecorder.record_audio_trim
        (RecordersRecorder.record_audio_loop 1024 (RecordersRecorder.max_frames 1)
          (fun _ => true) (fun _ r => List.replicate r 0) 3
          { recording := List.replicate 1800 0, offset := 0, reads := 0,
            allStored := true })).length =
      (RecordersRecorder.record_audio_loop 1024 (RecordersRecorder.max_frames 1)
        (fun _ => true) (fun _ r => List.replicate r 0) 3
        { recording := List.replicate 1800 0, offset := 0, reads := 0,
          allStored := true }).offset :=
  C8_buffer_bounds 1 1024 3 (fun _ => true) (fun _ r => List.replicate r 0)
    (List.replicate 1800 0)
    (fun i r => by simp)
    (by rw [List.length_replicate]; norm_num [RecordersRecorder.max_frames])

end Osh

namespace Osh

/-- C1: in the merge step, whenever both computed paddings are non-negative,
beginning_duration + video_duration + ending_duration equals audio_duration
exactly over exact arithmetic. -/
theorem C1_padding_sum (audio_duration video_duration time_diff : ℚ)
    (hb : 0 ≤ RecordersUtils.beginning_duration audio_duration video_duration time_diff)
    (he : 0 ≤ RecordersUtils.ending_duration time_diff) :
    RecordersUtils.beginning_duration audio_duration video_duration time_diff
      + video_duration + RecordersUtils.ending_duration time_diff
      = audio_duration := by
  unfold RecordersUtils.beginning_duration RecordersUtils.ending_duration
  ring

/-- Witness for C1 at audio_duration = 72/10, video_duration = 68/10,
time_diff = 4/10. -/
theorem C1_padding_sum_witness :
    RecordersUtils.beginning_duration (72/10 : ℚ) (68/10) (4/10)
      + (68/10 : ℚ) + RecordersUtils.ending_duration (4/10 : ℚ) = 72/10 :=
  C1_padding_sum (72/10) (68/10) (4/10) (by norm_num [RecordersUtils.beginning_duration])
    (by norm_num [RecordersUtils.ending_duration])

/-- C2: whenever both duration probes succeed and either computed padding is
negative, combine_audio_video fails with the timing ValueError: it returns
None, records the invalid-timing error, runs neither ffmpeg invocation and
writes nothing to the output path (the temp file is not even created). -/
theorem C2_negative_padding_rejected (video_file audio_file output_file : String)
    (a v td : ℚ) (o : RecordersUtils.MergeOracle)
    (ha : o.audioDuration = some a) (hv : o.videoDuration = some v)
    (hneg : RecordersUtils.beginning_duration a v td < 0 ∨
      RecordersUtils.ending_duration td < 0) :
    (RecordersUtils.combine_audio_video video_file audio_file output_file (some td) o)
      = RecordersUtils.mergeFailEarly RecordersUtils.MergeError.invalidTiming := by
  unfold RecordersUtils.combine_audio_video
  rw [ha, hv]
  simp only [hneg, if_pos]

/-- Witness for C2 at audioDuration = 5, videoDuration = 5, time_diff = 2
(beginning padding = -2): the merge returns None, no ffmpeg invocation runs,
and the output file is not written. -/
theorem C2_negative_padding_rejected_witness :
    (RecordersUtils.combine_audio_video "v.mp4" "a.wav" "out.mp4" (some 2)
        { audioDuration := some 5, videoDuration := some 5,
          videoInfo := some (1280, 720, 30), paddingRunRaises := false,
          muxRunRaises := false, muxWritesOutput := true, removeRaises := false })
      = RecordersUtils.mergeFailEarly RecordersUtils.MergeError.invalidTiming :=
  C2_negative_padding_rejected "v.mp4" "a.wav" "out.mp4" 5 5 2 _ rfl rfl
    (Or.inl (by norm_num [RecordersUtils.beginning_duration]))

/-- C3 counterexample: calling the recorders/utils.py merge with
time_diff = None, with both duration probes succeeding, returns None with a
caught TypeError and never reaches the mux — it does not perform a simple
mux and does not return the output path. -/
theorem C3_counterexample :
    (RecordersUtils.combine_audio_video "v.mp4" "a.wav" "out.mp4" none
        { audioDuration := some 10, videoDuration := some 5,
          videoInfo := some (1280, 720, 30), paddingRunRaises := false,
          muxRunRaises := false, muxWritesOutput := true, removeRaises := false }).ret
        = none ∧
    (RecordersUtils.combine_audio_video "v.mp4" "a.wav" "out.mp4" none
        { audioDuration := some 10, videoDuration := some 5,
          videoInfo := some (1280, 720, 30), paddingRunRaises := false,
          muxRunRaises := false, muxWritesOutput := true, removeRaises := false }).ranFfmpegMux
        = false := by
  constructor <;> rfl

/-- C3 amended: the merge with no time_diff in its signature
(screen_audio_recorder.py) performs a simple mux — video stream copied
as-is, audio transcoded to aac — and returns the output path when the
ffmpeg run does not raise; but the recorders/utils.py merge called with
time_diff = None does not fall back to a simple mux: the padding
computation raises a TypeError which is caught internally, it returns None
and runs no ffmpeg invocation. -/
theorem C3_no_timediff_behavior (video_file audio_file output_file : String)
    (o : RecordersUtils.MergeOracle) (a v : ℚ)
    (ha : o.audioDuration = some a) (hv : o.videoDuration = some v) :
    (ScreenAudioRecorder.combine_audio_video video_file audio_file output_file false).ret
        = some output_file ∧
    (ScreenAudioRecorder.combine_audio_video video_file audio_file output_file false).vcodec
        = "copy" ∧
    (ScreenAudioRecorder.combine_audio_video video_file audio_file output_file false).acodec
        = "aac" ∧
    RecordersUtils.combine_audio_video video_file audio_file output_file none o
        = RecordersUtils.mergeFailEarly RecordersUtils.MergeError.typeError := by
  refine ⟨rfl, rfl, rfl, ?_⟩
  unfold RecordersUtils.combine_audio_video
  rw [ha, hv]

/-- Witness for C3 amended at concrete files and a concrete oracle with
successful probes. -/
theorem C3_no_timediff_behavior_witness :
    (ScreenAudioRecorder.combine_audio_video "v.mp4" "a.wav" "out.mp4" false).ret
        = some "out.mp4" ∧
    (ScreenAudioRecorder.combine_audio_video "v.mp4" "a.wav" "out.mp4" false).vcodec
        = "copy" ∧
    (ScreenAudioRecorder.combine_audio_video "v.mp4" "a.wav" "out.mp4" false).acodec
        = "aac" ∧
    RecordersUtils.combine_audio_video "v.mp4" "a.wav" "out.mp4" none
        { audioDuration := some 10, videoDuration := some 5,
          videoInfo := some (1280, 720, 30), paddingRunRaises := false,
          muxRunRaises := false, muxWritesOutput := true, removeRaises := false }
        = RecordersUtils.mergeFailEarly RecordersUtils.MergeError.typeError :=
  C3_no_timediff_behavior "v.mp4" "a.wav" "out.mp4" _ 10 5 rfl rfl

/-- C5 counterexample: with valid timing (audio 7.2s, video 6.8s, skew 0.4s)
but the padding subprocess.run raising after the temp file was created, the
merge returns with the padded-video temp file still on disk — cleanup is
not guaranteed on every exit path. -/
theorem C5_counterexample :
    (RecordersUtils.combine_audio_video "v.mp4" "a.wav" "out.mp4" (some (4/10))
        { audioDuration := some (72/10), videoDuration := some (68/10),
          videoInfo := some (1280, 720, 30), paddingRunRaises := true,
          muxRunRaises := false, muxWritesOutput := true,
          removeRaises := false }).tempCreated = true ∧
    (RecordersUtils.combine_audio_video "v.mp4" "a.wav" "out.mp4" (some (4/10))
        { audioDuration := some (72/10), videoDuration := some (68/10),
          videoInfo := some (1280, 720, 30), paddingRunRaises := true,
          muxRunRaises := false, muxWritesOutput := true,
          removeRaises := false }).tempRemains = true := by
  constructor <;>
    norm_num [RecordersUtils.combine_audio_video, RecordersUtils.beginning_duration,
      RecordersUtils.ending_duration]

/-- C5 amended: the merge leaves no temp file behind provided no exception
is raised by either ffmpeg subprocess.run after the temp file is created
and the removal itself does not raise; every exit path reached before the
temp file is created (probe failure, TypeError, timing validation) also
leaves no temp file. -/
theorem C5_cleanup_amended (video_file audio_file output_file : String)
    (time_diff : Option ℚ) (o : RecordersUtils.MergeOracle)
    (hp : o.paddingRunRaises = false) (hm : o.muxRunRaises = false)
    (hr : o.removeRaises = false) :
    (RecordersUtils.combine_audio_video video_file audio_file output_file
        time_diff o).tempRemains = false := by
  obtain ⟨ad, vd, vi, pr, mr, mw, rr⟩ := o
  simp only at hp hm hr
  subst hp; subst hm; subst hr
  unfold RecordersUtils.combine_audio_video
  cases ad <;> cases vd <;> cases time_diff <;>
    simp only [RecordersUtils.mergeFailEarly] <;>
    try rfl
  split
  · rfl
  · cases vi <;> rfl

/-- Witness for C5 amended at a concrete successful run. -/
theorem C5_cleanup_amended_witness :
    (RecordersUtils.combine_audio_video "v.mp4" "a.wav" "out.mp4" (some (4/10))
        { audioDuration := some (72/10), videoDuration := some (68/10),
          videoInfo := some (1280, 720, 30), paddingRunRaises := false,
          muxRunRaises := false, muxWritesOutput := true,
          removeRaises := false }).tempRemains = false :=
  C5_cleanup_amended "v.mp4" "a.wav" "out.mp4" (some (4/10)) _ rfl rfl rfl

/-- C9: the merge never propagates an exception: its return value is None
exactly when some internal failure was caught, and any two failing calls —
for instance a timing-inconsistency failure and a merge-tool failure —
return the same value None, so the caller cannot distinguish them by the
return value alone. -/
theorem C9_failures_indistinguishable :
    (∀ (vf af of : String) (td : Option ℚ) (o : Osh.RecordersUtils.MergeOracle),
      (RecordersUtils.combine_audio_video vf af of td o).ret = none ↔
        ((RecordersUtils.combine_audio_video vf af of td o).error).isSome = true) ∧
    (∀ (vf af of : String) (td₁ td₂ : Option ℚ)
        (o₁ o₂ : Osh.RecordersUtils.MergeOracle),
      ((RecordersUtils.combine_audio_video vf af of td₁ o₁).error).isSome = true →
      ((RecordersUtils.combine_audio_video vf af of td₂ o₂).error).isSome = true →
      (RecordersUtils.combine_audio_video vf af of td₁ o₁).ret =
        (RecordersUtils.combine_audio_video vf af of td₂ o₂).ret) := by
  have key : ∀ (vf af of : String) (td : Option ℚ) (o : Osh.RecordersUtils.MergeOracle),
      (RecordersUtils.combine_audio_video vf af of td o).ret = none ↔
        ((RecordersUtils.combine_audio_video vf af of td o).error).isSome = true := by
    intro vf af of td o
    obtain ⟨ad, vd, vi, pr, mr, mw, rr⟩ := o
    unfold RecordersUtils.combine_audio_video
    cases ad <;> cases vd <;> cases td <;>
      simp only [RecordersUtils.mergeFailEarly, Option.isSome_some, Option.isSome_none] <;>
      try simp
    split
    · simp [RecordersUtils.mergeFailEarly]
    · cases vi <;> cases pr <;> cases mr <;> simp [RecordersUtils.mergeFailEarly]
  refine ⟨key, ?_⟩
  intro vf af of td₁ td₂ o₁ o₂ h₁ h₂
  rw [(key vf af of td₁ o₁).mpr h₁, (key vf af of td₂ o₂).mpr h₂]

/-- Witness for C9: a timing-inconsistency failure and a merge-tool failure
return the same value None. -/
theorem C9_failures_indistinguishable_witness :
    (RecordersUtils.combine_audio_video "v.mp4" "a.wav" "out.mp4" (some 2)
        { audioDuration := some 5, videoDuration := some 5,
          videoInfo := some (1280, 720, 30), paddingRunRaises := false,
          muxRunRaises := false, muxWritesOutput := true, removeRaises := false }).ret =
      (RecordersUtils.combine_audio_video "v.mp4" "a.wav" "out.mp4" (some (4/10))
        { audioDuration := some (72/10), videoDuration := some (68/10),
          videoInfo := some (1280, 720, 30), paddingRunRaises := false,
          muxRunRaises := true, muxWritesOutput := false, removeRaises := false }).ret :=
  C9_failures_indistinguishable.2 "v.mp4" "a.wav" "out.mp4" (some 2) (some (4/10)) _ _
    (by norm_num [RecordersUtils.combine_audio_video, RecordersUtils.beginning_duration,
      RecordersUtils.ending_duration, RecordersUtils.mergeFailEarly])
    (by norm_num [RecordersUtils.combine_audio_video, RecordersUtils.beginning_duration,
      RecordersUtils.ending_duration, RecordersUtils.mergeFailEarly])

end Osh
